import Mathlib

/-!
Verification of the message dispatch and resilient-delivery pipeline of
`src/services/messageHandler.js` (the venom-bot WhatsApp English-tutor bot).

The JavaScript handler is shallowly embedded: every outbound effect
(`client.sendText`, the HTTP attempts of `postWithRetry` / `getHealthWithRetry`,
and the assignment of the process-wide `warmedUp` flag) is recorded as an
`Event` in the order the code performs it; the process state (`userLevels`,
`warmedUp`) is threaded explicitly; a JavaScript exception escaping a block is
modelled as an `Option String` error component.  The behaviour of the external
world (whether a given send succeeds, the outcome of each HTTP attempt) is a
parameter `Env`, so theorems quantify over every backend/channel behaviour.
-/

namespace BotIngles

/-- Inbound message as delivered by the messaging layer (the venom-bot event
object): `from`, `sender?.id`, `body` may each be absent, `isGroupMsg` flags
group chats, `type` is the media type (`"chat"`, `"ptt"`, `"audio"`, ...). -/
structure Message where
  msgFrom : Option String
  senderId : Option String
  body : Option String
  isGroupMsg : Bool
  type : String
deriving Repr, DecidableEq

/-- JS truthiness for a string-valued expression: `undefined`/`null` and the
empty string are falsy. -/
def truthy : Option String → Option String
  | some s => if s = "" then none else some s
  | none => none

/-- Model of the JS expression `a || d` for a string-valued `a`. -/
def jsOr (a : Option String) (d : String) : String :=
  match truthy a with
  | some s => s
  | none => d

/-- Model of `message.from || message.sender?.id || 'unknown'`
(messageHandler.js line 343). -/
def resolvePhone (m : Message) : String :=
  match truthy m.msgFrom with
  | some s => s
  | none => jsOr m.senderId "unknown"

/-- Model of `String.prototype.trim` (remove leading and trailing
whitespace). -/
def jsTrim (s : String) : String :=
  ⟨((s.data.dropWhile Char.isWhitespace).reverse.dropWhile Char.isWhitespace).reverse⟩

/-- Model of `String.prototype.toLowerCase` (character-wise lowering). -/
def jsToLower (s : String) : String := ⟨s.data.map Char.toLower⟩

/-- Model of `String.prototype.includes`: `sub` occurs contiguously in `s`. -/
def includes (s sub : String) : Bool := decide (sub.data <:+: s.data)

/-- The backoff schedule of `postWithRetry` (messageHandler.js line 296):
`const delays = [0, 2000, 5000]`. -/
def postDelays : List Nat := [0, 2000, 5000]

/-- The backoff schedule of `getHealthWithRetry` (line 313):
`const delays = [0, 1500, 3000]`. -/
def healthDelays : List Nat := [0, 1500, 3000]

/-- The retry loop shared verbatim by `postWithRetry` (lines 294-309) and
`getHealthWithRetry` (lines 311-326).  `fuel` counts the remaining iterations
of `for (let i = 0; i < tries; i++)`, `i` is the current attempt index and
`lastErr` the last caught error.  `backend i` is the outcome of HTTP attempt
`i`.  Returns the final outcome (`throw lastErr` when the loop exhausts;
`lastErr` is `none` only when `tries = 0`) together with the list of backoff
delays slept before each attempt actually performed: `delays[i]` is `undefined`
past the end of the schedule, hence falsy, so no sleep happens there, exactly
like the schedule value `0` (modelled by `List.getD _ _ 0`). -/
def retryGo {ε ρ : Type} (delays : List Nat) (backend : Nat → Except ε ρ) :
    Nat → Nat → Option ε → Except (Option ε) ρ × List Nat
  | 0, _, lastErr => (Except.error lastErr, [])
  | fuel + 1, i, _lastErr =>
    match backend i with
    | Except.ok r => (Except.ok r, [delays.getD i 0])
    | Except.error e =>
      let rest := retryGo delays backend fuel (i + 1) (some e)
      (rest.1, delays.getD i 0 :: rest.2)

/-- `postWithRetry(pathname, data, tries = 3)` (messageHandler.js lines
294-309), abstracted over the per-attempt outcome `backend`. -/
def postWithRetry {ε ρ : Type} (backend : Nat → Except ε ρ) (tries : Nat := 3) :
    Except (Option ε) ρ × List Nat :=
  retryGo postDelays backend tries 0 none

/-- `getHealthWithRetry(tries = 3)` (messageHandler.js lines 311-326),
abstracted over the per-attempt outcome `backend`. -/
def getHealthWithRetry {ε : Type} (backend : Nat → Except ε Unit) (tries : Nat := 3) :
    Except (Option ε) Unit × List Nat :=
  retryGo healthDelays backend tries 0 none

/-- The chunking loop of `sendSafe` (messageHandler.js lines 331-333):
`for (let i = 0; i < text.length; i += maxLen) slice(i, i + maxLen)`.
`fuel = text.length` bounds the loop; with `0 < maxLen` it never runs out
before the text is exhausted. -/
def chunksGo (maxLen : Nat) : Nat → List Char → List (List Char)
  | 0, _ => []
  | _, [] => []
  | fuel + 1, l => l.take maxLen :: chunksGo maxLen fuel (l.drop maxLen)

/-- `sendSafe(client, to, text, maxLen = 3000)` (messageHandler.js lines
329-334), as the list of message payloads it sends: one message when the text
fits, otherwise the consecutive `maxLen`-sized slices. -/
def sendSafe (text : List Char) (maxLen : Nat) : List (List Char) :=
  if text.length ≤ maxLen then [text] else chunksGo maxLen text.length text

/-- The body POSTed to `{base}/correct` (messageHandler.js lines 412-416). -/
structure Payload where
  user_message : String
  level : String
  phone : String
deriving Repr, DecidableEq

/-- The backend response to `/correct`; `reply` is `data?.reply`
(absent field and absent body both collapse to `none`). -/
structure CorrectResp where
  reply : Option String
deriving Repr, DecidableEq

/-- Observable steps of the handler, in program order: the synchronous
assignment `warmedUp = true` (line 349), a `client.sendText(to, text)` call,
a `GET /health` attempt, a `POST /resetar` attempt, a `POST /correct`
attempt. -/
inductive Event where
  | flagSet
  | send (dest text : String)
  | health (attempt : Nat)
  | postReset (phone : String) (attempt : Nat)
  | postCorrect (payload : Payload) (attempt : Nat)
deriving Repr, DecidableEq

/-- External-world behaviour: whether `sendText(to, text)` succeeds, and the
outcome of each HTTP attempt of the three endpoints. -/
structure Env where
  sendOk : String → String → Bool
  health : Nat → Except String Unit
  reset : Nat → Except String Unit
  correct : Nat → Except String CorrectResp

/-- Process-wide mutable state of the module: `const userLevels = {}` (line
336, modelled as an association list whose most recent binding wins) and
`let warmedUp = false` (line 337). -/
structure BotState where
  userLevels : List (String × String)
  warmedUp : Bool
deriving Repr, DecidableEq

/-- The state at process start. -/
def initState : BotState := { userLevels := [], warmedUp := false }

/-- Lookup `userLevels[phone]` (`none` models `undefined`). -/
def getLevel (levels : List (String × String)) (phone : String) : Option String :=
  (levels.find? (fun p => p.1 == phone)).map Prod.snd

/-- Literal user-facing strings of messageHandler.js. -/
def preparingMsg : String := "⏳ Preparando o professor…"

def audioMsg : String :=
  "🎙️ O recurso de áudio está temporariamente desativado. Use mensagens de texto por enquanto!"

def helpMsg : String :=
  "📚 *Ajuda do Bot de Inglês*\n\nComandos: *#ajuda*, *#nivel*, *#desafio*, *#quiz*, *#meta*, *#frase*, *#resetar*.\nVocê também pode enviar frases para correção.\n\nEx.: \"I go school yesterday\""

def levelMenuMsg : String :=
  "📊 *Escolha seu nível de inglês:*\n\n1️⃣ Iniciante\n2️⃣ Básico\n3️⃣ Intermediário\n4️⃣ Avançado"

def resetOkMsg : String := "♻️ Sua memória foi limpa com sucesso. Podemos recomeçar!"

def resetFailMsg : String := "⚠️ Não consegui resetar sua memória. Tente novamente."

def correctFailMsg : String :=
  "⚠️ Tive dificuldade para falar com o professor agora. Tenta de novo daqui a pouco."

def fallbackReply : String := "❌ Erro ao processar a resposta."

def unexpectedMsg : String := "⚠️ Tive um erro inesperado aqui. Pode tentar de novo?"

/-- `✅ Nível definido como *${levelMap[body]}*.` (line 395). -/
def levelSetMsg (lvl : String) : String := "✅ Nível definido como *" ++ lvl ++ "*."

/-- `const levelMap = { '1': 'beginner', '2': 'basic', '3': 'intermediate',
'4': 'advanced' }` (line 393); only ever read at the four listed keys. -/
def levelMap : String → String
  | "1" => "beginner"
  | "2" => "basic"
  | "3" => "intermediate"
  | "4" => "advanced"
  | _ => ""

/-- Markers the handler looks for in the backend reply (lines 435-438). -/
def correctMarker : String := "✅ Muito bem!"

def incorrectMarker : String := "❌ Ops!"

def correctBanner : String := "🎉 *Resposta Correta!*\n\n"

def incorrectBanner : String := "📌 *Resposta Incorreta*\n\n"

/-- The reply-annotation transform of lines 435-441: the first matching marker
selects a banner prepended to the unmodified backend reply. -/
def annotateReply (reply : String) : String :=
  if includes reply correctMarker then correctBanner ++ reply
  else if includes reply incorrectMarker then incorrectBanner ++ reply
  else reply

/-- One `await client.sendText(to, text)`: the call is recorded; a falsy
outcome throws (second component is the escaping exception, if any). -/
def send1 (env : Env) (dest text : String) : List Event × Option String :=
  ([Event.send dest text], if env.sendOk dest text then none else some "SEND_FAIL")

/-- The `GET /health` attempts performed: one event per attempt. -/
def healthEvents (n : Nat) : List Event := (List.range n).map Event.health

/-- The `POST /resetar` attempts performed: one event per attempt. -/
def resetEvents (phone : String) (n : Nat) : List Event :=
  (List.range n).map (Event.postReset phone)

/-- The `POST /correct` attempts performed: one event per attempt. -/
def correctEvents (p : Payload) (n : Nat) : List Event :=
  (List.range n).map (Event.postCorrect p)

/-- Sequentially send a list of chunks (the loop body of `sendSafe`); a
throwing send aborts the remaining chunks and propagates. -/
def sendPieces (env : Env) (dest : String) : List String → List Event × Option String
  | [] => ([], none)
  | t :: ts =>
    if env.sendOk dest t then
      let rest := sendPieces env dest ts
      (Event.send dest t :: rest.1, rest.2)
    else ([Event.send dest t], some "SEND_FAIL")

/-- A run of `sendSafe(client, to, text, maxLen)`. -/
def runSendSafe (env : Env) (dest text : String) (maxLen : Nat) :
    List Event × Option String :=
  sendPieces env dest ((sendSafe text.data maxLen).map (fun l => ⟨l⟩))

/-- The warm-up block (messageHandler.js lines 347-358): when the flag is
still false it is set synchronously (recorded as `Event.flagSet`) before the
first `await`; then, inside a `try` whose failures are only logged, the
"preparing" notice is sent and — if that send did not throw —
`getHealthWithRetry()` runs, its outcome discarded. -/
def warmup (env : Env) (s : BotState) (phone : String) : List Event × BotState :=
  if s.warmedUp then ([], s)
  else
    let s' : BotState := { s with warmedUp := true }
    if env.sendOk phone preparingMsg then
      (Event.flagSet :: Event.send phone preparingMsg ::
        healthEvents (getHealthWithRetry env.health 3).2.length, s')
    else ([Event.flagSet, Event.send phone preparingMsg], s')

/-- Command dispatch, the part of the handler after the warm-up block
(messageHandler.js lines 360-441), acting on the already-trimmed `body` and
the media `type`.  Returns (events, final state, escaping exception). -/
def dispatch (env : Env) (s1 : BotState) (userPhone body ty : String) :
    List Event × BotState × Option String :=
  if ty = "ptt" ∨ ty = "audio" then
    let r := send1 env userPhone audioMsg
    (r.1, s1, r.2)
  else
    let textLower := jsToLower body
    if textLower = "#ajuda" then
      let r := send1 env userPhone helpMsg
      (r.1, s1, r.2)
    else if textLower = "#nivel" then
      let r := send1 env userPhone levelMenuMsg
      (r.1, s1, r.2)
    else if body = "1" ∨ body = "2" ∨ body = "3" ∨ body = "4" then
      let lvl := levelMap body
      let s2 : BotState := { s1 with userLevels := (userPhone, lvl) :: s1.userLevels }
      let r := send1 env userPhone (levelSetMsg lvl)
      (r.1, s2, r.2)
    else if textLower = "#resetar" then
      let t := postWithRetry env.reset 3
      let evs := resetEvents userPhone t.2.length
      match t.1 with
      | Except.ok _ =>
        if env.sendOk userPhone resetOkMsg then
          (evs ++ [Event.send userPhone resetOkMsg], s1, none)
        else
          let r := send1 env userPhone resetFailMsg
          (evs ++ [Event.send userPhone resetOkMsg] ++ r.1, s1, r.2)
      | Except.error _ =>
        let r := send1 env userPhone resetFailMsg
        (evs ++ r.1, s1, r.2)
    else
      let payload : Payload :=
        { user_message := body, level := jsOr (getLevel s1.userLevels userPhone) "basic",
          phone := userPhone }
      let t := postWithRetry env.correct 3
      let evs := correctEvents payload t.2.length
      match t.1 with
      | Except.error _ =>
        let r := send1 env userPhone correctFailMsg
        (evs ++ r.1, s1, r.2)
      | Except.ok data =>
        let botReply := jsOr data.reply fallbackReply
        let r := runSendSafe env userPhone (annotateReply botReply) 3000
        (evs ++ r.1, s1, r.2)

/-- The body of `handleMessage`, i.e. the content of its top-level `try`
(messageHandler.js lines 341-441): drop group messages, resolve the sender,
trim the body and drop it when empty, run the warm-up block, then dispatch. -/
def handleBody (env : Env) (s : BotState) (m : Message) :
    List Event × BotState × Option String :=
  if m.isGroupMsg then ([], s, none)
  else
    let userPhone := resolvePhone m
    let body := jsTrim (jsOr m.body "")
    if body = "" then ([], s, none)
    else
      let w := warmup env s userPhone
      let d := dispatch env w.2 userPhone body m.type
      (w.1 ++ d.1, d.2)

/-- `handleMessage(client, message)` (messageHandler.js lines 339-447): the
body runs inside `try`; a caught exception triggers one attempt to send the
generic notice to `message?.from || 'unknown'`, whose own failure is swallowed
by the inner empty `catch`, so no exception ever escapes. -/
def handleMessage (env : Env) (s : BotState) (m : Message) :
    List Event × BotState × Option String :=
  let r := handleBody env s m
  match r.2.2 with
  | none => r
  | some _ =>
    let phone := jsOr m.msgFrom "unknown"
    (r.1 ++ [Event.send phone unexpectedMsg], r.2.1, none)

/-- Sequential handling of a list of inbound messages in one process
lifetime. -/
def runMessages (env : Env) (s : BotState) : List Message → List Event × BotState
  | [] => ([], s)
  | m :: ms =>
    let r := handleMessage env s m
    let rest := runMessages env r.2.1 ms
    (r.1 ++ rest.1, rest.2)

/-- Number of times the warm-up block was entered (each entry performs the
synchronous `warmedUp = true` assignment, recorded as `Event.flagSet`). -/
def countFlagSet (evs : List Event) : Nat :=
  evs.countP (fun e => e == Event.flagSet)

/-- Number of `client.sendText` calls in a trace. -/
def countSends (evs : List Event) : Nat :=
  evs.countP (fun e => match e with | Event.send _ _ => true | _ => false)

/-- Fixture: a channel where every send succeeds and every HTTP attempt fails
(a cold backend that never comes up). -/
def envDown : Env :=
  { sendOk := fun _ _ => true
    health := fun _ => Except.error "ETIMEDOUT"
    reset := fun _ => Except.error "ETIMEDOUT"
    correct := fun _ => Except.error "ETIMEDOUT" }

/-- Fixture: a channel where every send succeeds, the health probe fails, the
reset endpoint succeeds, and `/correct` succeeds immediately with the given
reply. -/
def envReply (r : Option String) : Env :=
  { sendOk := fun _ _ => true
    health := fun _ => Except.error "ETIMEDOUT"
    reset := fun _ => Except.ok ()
    correct := fun _ => Except.ok { reply := r } }

/-- Fixture: a channel where every send throws and every HTTP call succeeds. -/
def envSendFail : Env :=
  { sendOk := fun _ _ => false
    health := fun _ => Except.ok ()
    reset := fun _ => Except.ok ()
    correct := fun _ => Except.ok { reply := some "ok" } }

/-- Fixture: an ordinary text message from user u1. -/
def textMsg (b : String) : Message :=
  { msgFrom := some "u1", senderId := none, body := some b, isGroupMsg := false, type := "chat" }

/-- Fixture: a group message. -/
def groupMsg : Message :=
  { msgFrom := some "u1", senderId := none, body := some "hello", isGroupMsg := true,
    type := "chat" }

/-- Fixture: a message whose body trims to the empty string. -/
def emptyBodyMsg : Message :=
  { msgFrom := some "u1", senderId := none, body := some "   ", isGroupMsg := false,
    type := "chat" }

/-- Fixture: a voice-note message (with a nonempty body). -/
def voiceMsg : Message :=
  { msgFrom := some "u1", senderId := none, body := some "voice", isGroupMsg := false,
    type := "ptt" }

/-- Fixture: a voice-note message whose body is empty. -/
def voiceEmptyMsg : Message :=
  { msgFrom := some "u1", senderId := none, body := none, isGroupMsg := false, type := "ptt" }

/-- Fixture: a state whose warm-up already happened. -/
def warmState : BotState := { userLevels := [], warmedUp := true }

/-- Concatenating the chunks produced by the chunking loop restores the
original text, provided the loop has enough fuel and a positive chunk size. -/
theorem chunksGo_flatten (maxLen : Nat) (hC : 0 < maxLen) :
    ∀ fuel l, List.length l ≤ fuel → (chunksGo maxLen fuel l).flatten = l := by
  intro fuel
  induction fuel with
  | zero =>
    intro l hl
    have : l = [] := List.eq_nil_of_length_eq_zero (Nat.le_zero.mp hl)
    simp [this, chunksGo]
  | succ n ih =>
    intro l hl
    cases l with
    | nil => simp [chunksGo]
    | cons a t =>
      simp only [chunksGo, List.flatten_cons]
      rw [ih]
      · exact List.take_append_drop _ _
      · have hd : (List.drop maxLen (a :: t)).length = (a :: t).length - maxLen :=
          List.length_drop _ _
        have hlen : (a :: t).length = t.length + 1 := by simp
        omega

/-- Every chunk produced by the chunking loop has length at most `maxLen`. -/
theorem chunksGo_chunk_le (maxLen : Nat) :
    ∀ fuel l c, c ∈ chunksGo maxLen fuel l → c.length ≤ maxLen := by
  intro fuel
  induction fuel with
  | zero => intro l c hc; simp [chunksGo] at hc
  | succ n ih =>
    intro l c hc
    cases l with
    | nil => simp [chunksGo] at hc
    | cons a t =>
      simp only [chunksGo, List.mem_cons] at hc
      rcases hc with h | h
      · subst h
        simp [Nat.min_le_right]
      · exact ih _ _ h

/-- The chunking loop produces exactly `ceil(length / maxLen)` chunks. -/
theorem chunksGo_length (maxLen : Nat) (hC : 0 < maxLen) :
    ∀ fuel l, List.length l ≤ fuel →
      (chunksGo maxLen fuel l).length = (l.length + maxLen - 1) / maxLen := by
  intro fuel
  induction fuel with
  | zero =>
    intro l hl
    have : l = [] := List.eq_nil_of_length_eq_zero (Nat.le_zero.mp hl)
    subst this
    simp only [chunksGo, List.length_nil, Nat.zero_add]
    rw [Nat.div_eq_of_lt (by omega)]
  | succ n ih =>
    intro l hl
    cases l with
    | nil =>
      simp only [chunksGo, List.length_nil, Nat.zero_add]
      rw [Nat.div_eq_of_lt (by omega)]
    | cons a t =>
      have hlen : (a :: t).length = t.length + 1 := by simp
      have hdlen : (List.drop maxLen (a :: t)).length = (a :: t).length - maxLen :=
        List.length_drop _ _
      simp only [chunksGo, List.length_cons]
      rw [ih _ (by omega), hdlen, hlen]
      have hsplit : t.length + 1 + maxLen - 1 = t.length + maxLen := by omega
      rw [hsplit, Nat.add_div_right _ hC]
      rcases le_or_lt maxLen (t.length + 1) with h | h
      · have h0 : t.length + 1 - maxLen + maxLen - 1 = t.length := by omega
        rw [h0]
      · have h0 : t.length + 1 - maxLen + maxLen - 1 = maxLen - 1 := by omega
        rw [h0, Nat.div_eq_of_lt (by omega), Nat.div_eq_of_lt (by omega)]

/-- C3: for every text of length L and positive chunk size C, sendSafe sends
the text as one message when L ≤ C, and otherwise sends exactly ceil(L/C)
consecutive chunks, each of length at most C, whose in-order concatenation is
exactly the original text. -/
theorem sendSafe_spec (text : List Char) (C : Nat) (hC : 0 < C) :
    (text.length ≤ C → sendSafe text C = [text]) ∧
    (C < text.length →
      (sendSafe text C).length = (text.length + C - 1) / C ∧
      (∀ c ∈ sendSafe text C, c.length ≤ C) ∧
      (sendSafe text C).flatten = text) := by
  constructor
  · intro h
    simp [sendSafe, h]
  · intro h
    have hn : ¬ text.length ≤ C := by omega
    simp only [sendSafe, if_neg hn]
    exact ⟨chunksGo_length C hC text.length text le_rfl,
      fun c hc => chunksGo_chunk_le C text.length text c hc,
      chunksGo_flatten C hC text.length text le_rfl⟩

/-- Witness for C3 at text "abcde" and chunk size 2: three chunks that
concatenate back to the text. -/
theorem sendSafe_spec_witness :
    (sendSafe ['a', 'b', 'c', 'd', 'e'] 2).length = 3 ∧
    (∀ c ∈ sendSafe ['a', 'b', 'c', 'd', 'e'] 2, c.length ≤ 2) ∧
    (sendSafe ['a', 'b', 'c', 'd', 'e'] 2).flatten = ['a', 'b', 'c', 'd', 'e'] := by
  have h := (sendSafe_spec ['a', 'b', 'c', 'd', 'e'] 2 (by decide)).2 (by decide)
  exact ⟨h.1.trans (by decide), h.2.1, h.2.2⟩

/-- C1: for a backend that fails the first N-1 attempts and succeeds on
attempt N (1 ≤ N ≤ maxAttempts; both call sites of postWithRetry use the
default maxAttempts = 3), postWithRetry returns that attempt's payload,
performs exactly N attempts, the delay slept before attempt i (0-indexed) is
the fixed schedule value postDelays[i], with no delay before attempt 0, and
the observed delays are strictly increasing. -/
theorem postWithRetry_success {ρ : Type} (backend : Nat → Except String ρ)
    (N : Nat) (r : ρ) (h1 : 1 ≤ N) (h2 : N ≤ 3)
    (hfail : ∀ i, i < N - 1 → ∃ e, backend i = Except.error e)
    (hsucc : backend (N - 1) = Except.ok r) :
    (postWithRetry backend 3).1 = Except.ok r ∧
    (postWithRetry backend 3).2.length = N ∧
    (postWithRetry backend 3).2 = (List.range N).map (fun i => postDelays.getD i 0) ∧
    (postWithRetry backend 3).2.head? = some 0 ∧
    List.Pairwise (· < ·) (postWithRetry backend 3).2 := by
  interval_cases N
  · have hs : backend 0 = Except.ok r := hsucc
    simp [postWithRetry, retryGo, hs, postDelays]
    decide
  · obtain ⟨e0, he0⟩ := hfail 0 (by omega)
    have hs : backend 1 = Except.ok r := hsucc
    simp [postWithRetry, retryGo, he0, hs, postDelays]
    decide
  · obtain ⟨e0, he0⟩ := hfail 0 (by omega)
    obtain ⟨e1, he1⟩ := hfail 1 (by omega)
    have hs : backend 2 = Except.ok r := hsucc
    simp [postWithRetry, retryGo, he0, he1, hs, postDelays]
    decide

/-- Witness for C1: a backend failing attempt 0 and succeeding on attempt 1
yields the payload after exactly two attempts with delays 0 then 2000. -/
theorem postWithRetry_success_witness :
    (postWithRetry
      (fun i => if i = 0 then (Except.error "boom" : Except String String)
        else Except.ok "payload") 3).1 = Except.ok "payload" ∧
    (postWithRetry
      (fun i => if i = 0 then (Except.error "boom" : Except String String)
        else Except.ok "payload") 3).2 = [0, 2000] := by
  have h := postWithRetry_success
    (fun i => if i = 0 then (Except.error "boom" : Except String String)
      else Except.ok "payload")
    2 "payload" (by omega) (by omega)
    (fun i hi => ⟨"boom", by interval_cases i; rfl⟩) rfl
  exact ⟨h.1, h.2.2.1.trans (by decide)⟩

/-- Counting warm-up entries distributes over trace concatenation. -/
theorem countFlagSet_append (a b : List Event) :
    countFlagSet (a ++ b) = countFlagSet a + countFlagSet b := by
  simp [countFlagSet]

/-- Health-probe attempts are not warm-up entries. -/
theorem countFlagSet_healthEvents (n : Nat) : countFlagSet (healthEvents n) = 0 := by
  simp [countFlagSet, healthEvents, List.countP_eq_zero]

/-- Reset-endpoint attempts are not warm-up entries. -/
theorem countFlagSet_resetEvents (p : String) (n : Nat) :
    countFlagSet (resetEvents p n) = 0 := by
  simp [countFlagSet, resetEvents, List.countP_eq_zero]

/-- Correct-endpoint attempts are not warm-up entries. -/
theorem countFlagSet_correctEvents (p : Payload) (n : Nat) :
    countFlagSet (correctEvents p n) = 0 := by
  simp [countFlagSet, correctEvents, List.countP_eq_zero]

/-- A single send is not a warm-up entry. -/
theorem countFlagSet_send1 (env : Env) (d t : String) :
    countFlagSet (send1 env d t).1 = 0 := by
  simp [countFlagSet, send1]

/-- Chunked sends contain no warm-up entries. -/
theorem countFlagSet_sendPieces (env : Env) (d : String) (ts : List String) :
    countFlagSet (sendPieces env d ts).1 = 0 := by
  induction ts with
  | nil => simp [sendPieces, countFlagSet]
  | cons t ts ih =>
    simp only [sendPieces]
    split
    · simpa [countFlagSet, List.countP_cons] using ih
    · simp [countFlagSet]

/-- A trace with no warm-up entries does not contain `Event.flagSet`. -/
theorem flagSet_not_mem_of_count_zero {evs : List Event}
    (h : countFlagSet evs = 0) : Event.flagSet ∉ evs := by
  intro hmem
  have := (List.countP_eq_zero.mp h) _ hmem
  simp at this

/-- The warm-up block is a no-op once the flag is set. -/
theorem warmup_warmed (env : Env) (s : BotState) (p : String)
    (h : s.warmedUp = true) : warmup env s p = ([], s) := by
  simp [warmup, h]

/-- On a cold state the warm-up block sets the flag synchronously (first
event), then sends the preparing notice, and contributes exactly one warm-up
entry. -/
theorem warmup_cold (env : Env) (s : BotState) (p : String)
    (h : s.warmedUp = false) :
    (warmup env s p).2 = { s with warmedUp := true } ∧
    countFlagSet (warmup env s p).1 = 1 ∧
    ∃ rest, (warmup env s p).1 = Event.flagSet :: Event.send p preparingMsg :: rest := by
  by_cases hs : env.sendOk p preparingMsg <;>
    simp [warmup, h, hs, countFlagSet, List.countP_cons,
      countFlagSet_healthEvents, healthEvents, List.countP_eq_zero]

/-- Dispatch (everything after the warm-up block) performs no warm-up entry. -/
theorem countFlagSet_sendOne (d t : String) : countFlagSet [Event.send d t] = 0 := by
  simp [countFlagSet]

theorem dispatch_no_flagSet (env : Env) (s1 : BotState) (p b ty : String) :
    countFlagSet (dispatch env s1 p b ty).1 = 0 := by
  unfold dispatch
  dsimp only
  repeat' split
  all_goals
    simp only [countFlagSet_append, countFlagSet_send1, countFlagSet_resetEvents,
      countFlagSet_correctEvents, countFlagSet_sendPieces, runSendSafe,
      countFlagSet_sendOne]

/-- Dispatch never changes the warm-up flag. -/
theorem dispatch_warmedUp (env : Env) (s1 : BotState) (p b ty : String) :
    (dispatch env s1 p b ty).2.1.warmedUp = s1.warmedUp := by
  unfold dispatch
  dsimp only
  repeat' split
  all_goals rfl

/-- Dispatch never changes stored levels of other users, and only the digit
branch changes them at all: outside that branch the mapping is untouched. -/
theorem dispatch_userLevels (env : Env) (s1 : BotState) (p b ty : String)
    (hd : ¬ (b = "1" ∨ b = "2" ∨ b = "3" ∨ b = "4")) :
    (dispatch env s1 p b ty).2.1.userLevels = s1.userLevels := by
  unfold dispatch
  dsimp only
  repeat' split
  all_goals rfl

/-- Per-message warm-up accounting: a warmed-up state stays warmed up and
yields no warm-up entry; any single message yields at most one; and a state
still cold afterwards yielded none. -/
theorem handleMessage_flag (env : Env) (s : BotState) (m : Message) :
    (s.warmedUp = true →
      countFlagSet (handleMessage env s m).1 = 0 ∧
      (handleMessage env s m).2.1.warmedUp = true) ∧
    countFlagSet (handleMessage env s m).1 ≤ 1 ∧
    ((handleMessage env s m).2.1.warmedUp = false →
      countFlagSet (handleMessage env s m).1 = 0) := by
  have hbody : countFlagSet (handleMessage env s m).1 =
      countFlagSet (handleBody env s m).1 ∧
      (handleMessage env s m).2.1 = (handleBody env s m).2.1 := by
    unfold handleMessage
    cases h : (handleBody env s m).2.2 <;>
      simp [h, countFlagSet_append, countFlagSet_sendOne]
  rw [hbody.1, hbody.2]
  unfold handleBody
  by_cases hg : m.isGroupMsg
  · simp [hg, countFlagSet]
  by_cases hb : jsTrim (jsOr m.body "") = ""
  · simp [hg, hb, countFlagSet]
  simp only [hg, hb, Bool.false_eq_true, if_false, if_neg hb, ite_false]
  rw [countFlagSet_append, dispatch_no_flagSet, dispatch_warmedUp]
  cases hw : s.warmedUp with
  | true =>
    rw [warmup_warmed env s (resolvePhone m) hw]
    simp [countFlagSet, hw]
  | false =>
    have h := warmup_cold env s (resolvePhone m) hw
    rw [h.2.1, h.1]
    simp

/-- Across a whole sequential run, the number of warm-up entries is bounded by
one if the starting state is cold, zero if it is already warmed up. -/
theorem runMessages_flag (env : Env) :
    ∀ ms s, countFlagSet (runMessages env s ms).1 ≤ (if s.warmedUp then 0 else 1) := by
  intro ms
  induction ms with
  | nil => intro s; simp [runMessages, countFlagSet]
  | cons m ms ih =>
    intro s
    have h := handleMessage_flag env s m
    simp only [runMessages]
    rw [countFlagSet_append]
    by_cases hw : s.warmedUp
    · have h1 := h.1 hw
      have := ih (handleMessage env s m).2.1
      rw [h1.2] at this
      simp only [if_pos hw, if_pos] at this ⊢
      omega
    · simp only [if_neg hw]
      by_cases hw2 : (handleMessage env s m).2.1.warmedUp
      · have := ih (handleMessage env s m).2.1
        rw [if_pos hw2] at this
        have h2 := h.2.1
        omega
      · have h0 := h.2.2 (by simpa using hw2)
        have := ih (handleMessage env s m).2.1
        rw [if_neg hw2] at this
        omega

/-- C10: the reply annotation prepends at most one banner; when the reply
contains the correct-marker the correct banner is chosen (also when the
incorrect-marker is present too), otherwise the incorrect banner when only
that marker is present, otherwise nothing; in every case the original reply
follows unmodified. -/
theorem annotateReply_spec (reply : String) :
    (includes reply correctMarker = true → annotateReply reply = correctBanner ++ reply) ∧
    (includes reply correctMarker = false → includes reply incorrectMarker = true →
      annotateReply reply = incorrectBanner ++ reply) ∧
    (includes reply correctMarker = false → includes reply incorrectMarker = false →
      annotateReply reply = reply) := by
  refine ⟨fun h => ?_, fun h1 h2 => ?_, fun h1 h2 => ?_⟩ <;>
    simp [annotateReply, *]

/-- Witness for C10: a reply containing both markers receives exactly the
correct banner, followed by the unmodified reply. -/
theorem annotateReply_spec_witness :
    annotateReply "✅ Muito bem! ❌ Ops!" = correctBanner ++ "✅ Muito bem! ❌ Ops!" :=
  (annotateReply_spec "✅ Muito bem! ❌ Ops!").1 (by decide)

/-- On a non-group message with nonempty trimmed body, the handler body is the
warm-up trace followed by the dispatch outcome. -/
theorem handleBody_eq (env : Env) (s : BotState) (m : Message)
    (hg : m.isGroupMsg = false) (hb : jsTrim (jsOr m.body "") ≠ "") :
    handleBody env s m =
      ((warmup env s (resolvePhone m)).1 ++
        (dispatch env (warmup env s (resolvePhone m)).2 (resolvePhone m)
          (jsTrim (jsOr m.body "")) m.type).1,
       (dispatch env (warmup env s (resolvePhone m)).2 (resolvePhone m)
          (jsTrim (jsOr m.body "")) m.type).2) := by
  unfold handleBody
  simp [hg, hb]

/-- When the body completes without an escaping exception, handleMessage is
exactly the body. -/
theorem handleMessage_eq_none (env : Env) (s : BotState) (m : Message)
    (h : (handleBody env s m).2.2 = none) :
    handleMessage env s m = handleBody env s m := by
  unfold handleMessage
  simp only [h]

/-- When the body throws, handleMessage appends the generic-notice attempt to
`message?.from || 'unknown'` and swallows every failure. -/
theorem handleMessage_eq_some (env : Env) (s : BotState) (m : Message) (e : String)
    (h : (handleBody env s m).2.2 = some e) :
    handleMessage env s m =
      ((handleBody env s m).1 ++ [Event.send (jsOr m.msgFrom "unknown") unexpectedMsg],
        (handleBody env s m).2.1, none) := by
  unfold handleMessage
  simp only [h]

/-- If the body trace contains the warm-up entry, that entry is its very first
event and the resulting state is warmed up. -/
theorem handleBody_flagSet_mem (env : Env) (s : BotState) (m : Message)
    (hmem : Event.flagSet ∈ (handleBody env s m).1) :
    (handleBody env s m).1.head? = some Event.flagSet ∧
    (handleBody env s m).2.1.warmedUp = true := by
  by_cases hg : m.isGroupMsg
  · unfold handleBody at hmem
    simp [hg] at hmem
  by_cases hb : jsTrim (jsOr m.body "") = ""
  · unfold handleBody at hmem
    simp [hg, hb] at hmem
  have hg' : m.isGroupMsg = false := by simpa using hg
  rw [handleBody_eq env s m hg' hb] at hmem ⊢
  have hd0 := dispatch_no_flagSet env (warmup env s (resolvePhone m)).2 (resolvePhone m)
    (jsTrim (jsOr m.body "")) m.type
  have hnd := flagSet_not_mem_of_count_zero hd0
  rw [List.mem_append] at hmem
  rcases hmem with hw | hw
  · cases hws : s.warmedUp with
    | true =>
      rw [warmup_warmed env s (resolvePhone m) hws] at hw
      simp at hw
    | false =>
      have h := warmup_cold env s (resolvePhone m) hws
      obtain ⟨rest, hevs⟩ := h.2.2
      rw [hevs]
      refine ⟨rfl, ?_⟩
      rw [dispatch_warmedUp, h.1]
  · exact absurd hw hnd

/-- C4: across every sequence of inbound messages handled in one process
lifetime the warm-up block runs at most once, whatever the probe or channel
outcomes (in particular even if the warm-up itself failed); and whenever a
message does trigger it, the synchronous flag assignment is the very first
step of that handler invocation's trace — before its first awaited effect —
and the resulting state is warmed up, so no later message can trigger a
second warm-up. -/
theorem warmup_at_most_once (env : Env) (ms : List Message) (s : BotState) (m : Message) :
    countFlagSet (runMessages env initState ms).1 ≤ 1 ∧
    (Event.flagSet ∈ (handleMessage env s m).1 →
      (handleMessage env s m).1.head? = some Event.flagSet ∧
      (handleMessage env s m).2.1.warmedUp = true) := by
  constructor
  · have h := runMessages_flag env ms initState
    simpa [initState] using h
  · intro hmem
    cases he : (handleBody env s m).2.2 with
    | none =>
      rw [handleMessage_eq_none env s m he] at hmem ⊢
      exact handleBody_flagSet_mem env s m hmem
    | some e =>
      rw [handleMessage_eq_some env s m e he] at hmem ⊢
      simp only [List.mem_append, List.mem_singleton] at hmem
      rcases hmem with hmem | hmem
      · have h := handleBody_flagSet_mem env s m hmem
        cases hevs : (handleBody env s m).1 with
        | nil => rw [hevs] at hmem; simp at hmem
        | cons a t =>
          rw [hevs] at h
          refine ⟨?_, h.2⟩
          simpa using h.1
      · simp at hmem

/-- Witness for C4: with an always-failing backend, two consecutive text
messages still trigger exactly one warm-up, and the triggering invocation puts
the flag assignment first. -/
theorem warmup_at_most_once_witness :
    countFlagSet (runMessages envDown initState [textMsg "oi", textMsg "oi"]).1 ≤ 1 ∧
    (handleMessage envDown initState (textMsg "oi")).1.head? = some Event.flagSet ∧
    (handleMessage envDown initState (textMsg "oi")).2.1.warmedUp = true :=
  ⟨(warmup_at_most_once envDown [textMsg "oi", textMsg "oi"] initState (textMsg "oi")).1,
   (warmup_at_most_once envDown [textMsg "oi", textMsg "oi"] initState (textMsg "oi")).2
     (by decide)⟩

/-- C5 (amended): for the first inbound message of the process lifetime that
is not a group message and whose trimmed body is nonempty — regardless of
media type — the warm-up is triggered and the user-visible preparing notice
is sent immediately, before any command processing.  (The claim's "regardless
of body and group status" fails: the group and empty-body guards precede the
warm-up block; see the counterexample.) -/
theorem warmup_preparing_first (env : Env) (s : BotState) (m : Message)
    (hw : s.warmedUp = false) (hg : m.isGroupMsg = false)
    (hb : jsTrim (jsOr m.body "") ≠ "") :
    ∃ rest, (handleMessage env s m).1 =
      Event.flagSet :: Event.send (resolvePhone m) preparingMsg :: rest := by
  have h := warmup_cold env s (resolvePhone m) hw
  obtain ⟨rest0, hevs⟩ := h.2.2
  have hbodyEq := handleBody_eq env s m hg hb
  cases he : (handleBody env s m).2.2 with
  | none =>
    rw [handleMessage_eq_none env s m he, hbodyEq]
    exact ⟨rest0 ++ (dispatch env (warmup env s (resolvePhone m)).2 (resolvePhone m)
      (jsTrim (jsOr m.body "")) m.type).1, by rw [hevs]; simp⟩
  | some e =>
    rw [handleMessage_eq_some env s m e he, hbodyEq]
    refine ⟨rest0 ++ (dispatch env (warmup env s (resolvePhone m)).2 (resolvePhone m)
      (jsTrim (jsOr m.body "")) m.type).1 ++
      [Event.send (jsOr m.msgFrom "unknown") unexpectedMsg], ?_⟩
    rw [hevs]
    simp

/-- Witness for C5: a first voice-note message (media type "ptt") still
triggers the warm-up and the preparing notice first. -/
theorem warmup_preparing_first_witness :
    ∃ rest, (handleMessage envDown initState voiceMsg).1 =
      Event.flagSet :: Event.send (resolvePhone voiceMsg) preparingMsg :: rest :=
  warmup_preparing_first envDown initState voiceMsg rfl rfl (by decide)

/-- The warm-up block never touches the stored levels. -/
theorem warmup_userLevels (env : Env) (s : BotState) (p : String) :
    (warmup env s p).2.userLevels = s.userLevels := by
  unfold warmup
  repeat' split
  all_goals rfl

/-- C6 (amended): for every inbound non-group audio/voice-note message with a
nonempty trimmed body handled after the warm-up has already run, and whose
notice send succeeds, the handler's trace is exactly one outbound message —
the fixed disabled-feature notice — with no backend HTTP call of any kind,
unchanged state and no escaping exception: command processing stops there.
(As stated the claim fails on the first message of the process — warm-up adds
a second send and health-probe calls — and on an audio message with empty
body, which is dropped silently; see the counterexample.) -/
theorem audio_disabled (env : Env) (s : BotState) (m : Message)
    (hw : s.warmedUp = true) (hg : m.isGroupMsg = false)
    (hb : jsTrim (jsOr m.body "") ≠ "")
    (ht : m.type = "ptt" ∨ m.type = "audio")
    (hs : env.sendOk (resolvePhone m) audioMsg = true) :
    (handleMessage env s m).1 = [Event.send (resolvePhone m) audioMsg] ∧
    (handleMessage env s m).2.1 = s ∧
    (handleMessage env s m).2.2 = none := by
  have hwarm := warmup_warmed env s (resolvePhone m) hw
  have hdisp : dispatch env (warmup env s (resolvePhone m)).2 (resolvePhone m)
      (jsTrim (jsOr m.body "")) m.type =
      ([Event.send (resolvePhone m) audioMsg], s, none) := by
    rw [hwarm]
    unfold dispatch
    rw [if_pos ht]
    simp [send1, hs]
  have hbody2 : handleBody env s m = ([Event.send (resolvePhone m) audioMsg], s, none) := by
    rw [handleBody_eq env s m hg hb, hdisp, hwarm]
    simp
  rw [handleMessage_eq_none env s m (by rw [hbody2]), hbody2]
  exact ⟨rfl, rfl, rfl⟩

/-- Witness for C6: a voice note sent to a warmed-up process yields exactly
the disabled-feature notice. -/
theorem audio_disabled_witness :
    (handleMessage envDown warmState voiceMsg).1 =
      [Event.send (resolvePhone voiceMsg) audioMsg] ∧
    (handleMessage envDown warmState voiceMsg).2.1 = warmState ∧
    (handleMessage envDown warmState voiceMsg).2.2 = none :=
  audio_disabled envDown warmState voiceMsg rfl rfl (by decide) (Or.inl rfl) rfl

/-- Counterexample to C6 as stated: (i) a FIRST voice message (cold process)
produces two sends — the warm-up preparing notice and the audio notice — and
performs backend health-probe calls; (ii) a voice message whose body is empty
is dropped silently with no notice at all. -/
theorem audio_disabled_cex :
    countSends (handleMessage envDown initState voiceMsg).1 = 2 ∧
    Event.health 0 ∈ (handleMessage envDown initState voiceMsg).1 ∧
    (handleMessage envDown warmState voiceEmptyMsg).1 = [] := by
  decide

/-- Counterexample to C5 as stated: a first inbound message that is a group
message, or whose body trims to empty, triggers no warm-up and no preparing
notice at all — the group and empty-body guards run before the warm-up
block. -/
theorem warmup_preparing_first_cex :
    (handleMessage envDown initState groupMsg).1 = [] ∧
    (handleMessage envDown initState groupMsg).2.1.warmedUp = false ∧
    (handleMessage envDown initState emptyBodyMsg).1 = [] ∧
    (handleMessage envDown initState emptyBodyMsg).2.1.warmedUp = false := by
  decide

/-- The retry loop always performs at least one attempt when tries = 3. -/
theorem postWithRetry_attempts_pos {ε ρ : Type} (backend : Nat → Except ε ρ) :
    1 ≤ (postWithRetry backend 3).2.length := by
  unfold postWithRetry
  cases h : backend 0 <;> simp [retryGo, h]

/-- C8: for every inbound non-group message whose trimmed body lowercases to
"#resetar" (and is not an audio message, which takes priority), with a working
outbound channel, the handler POSTs to the reset endpoint, replies with the
success notice when the backend reset succeeds and with the distinct failure
notice when it fails, never lets an exception escape, and leaves the local
session-level mapping of every user unchanged on both paths. -/
theorem resetar_cmd (env : Env) (s : BotState) (m : Message)
    (hg : m.isGroupMsg = false)
    (hb : jsToLower (jsTrim (jsOr m.body "")) = "#resetar")
    (hty : ¬ (m.type = "ptt" ∨ m.type = "audio"))
    (hsend : ∀ a b2, env.sendOk a b2 = true) :
    Event.postReset (resolvePhone m) 0 ∈ (handleMessage env s m).1 ∧
    (∀ u, (postWithRetry env.reset 3).1 = Except.ok u →
      Event.send (resolvePhone m) resetOkMsg ∈ (handleMessage env s m).1) ∧
    (∀ e, (postWithRetry env.reset 3).1 = Except.error e →
      Event.send (resolvePhone m) resetFailMsg ∈ (handleMessage env s m).1) ∧
    resetOkMsg ≠ resetFailMsg ∧
    (handleMessage env s m).2.1.userLevels = s.userLevels ∧
    (handleMessage env s m).2.2 = none := by
  have hb0 : jsTrim (jsOr m.body "") ≠ "" := by
    intro h0
    rw [h0] at hb
    exact absurd hb (by decide)
  have h1 : jsToLower (jsTrim (jsOr m.body "")) ≠ "#ajuda" := by
    rw [hb]; decide
  have h2 : jsToLower (jsTrim (jsOr m.body "")) ≠ "#nivel" := by
    rw [hb]; decide
  have h3 : ¬ (jsTrim (jsOr m.body "") = "1" ∨ jsTrim (jsOr m.body "") = "2" ∨
      jsTrim (jsOr m.body "") = "3" ∨ jsTrim (jsOr m.body "") = "4") := by
    rintro (h | h | h | h) <;> rw [h] at hb <;> exact absurd hb (by decide)
  have hdisp : dispatch env (warmup env s (resolvePhone m)).2 (resolvePhone m)
      (jsTrim (jsOr m.body "")) m.type =
      (resetEvents (resolvePhone m) (postWithRetry env.reset 3).2.length ++
        (match (postWithRetry env.reset 3).1 with
         | Except.ok _ => [Event.send (resolvePhone m) resetOkMsg]
         | Except.error _ => [Event.send (resolvePhone m) resetFailMsg]),
       (warmup env s (resolvePhone m)).2, none) := by
    unfold dispatch
    rw [if_neg hty]
    dsimp only
    rw [if_neg h1, if_neg h2, if_neg h3, if_pos hb]
    cases ht1 : (postWithRetry env.reset 3).1 with
    | ok u => simp [send1, hsend (resolvePhone m) resetOkMsg]
    | error e => simp [send1, hsend (resolvePhone m) resetFailMsg]
  have hbody2 : handleBody env s m =
      ((warmup env s (resolvePhone m)).1 ++
        (resetEvents (resolvePhone m) (postWithRetry env.reset 3).2.length ++
          (match (postWithRetry env.reset 3).1 with
           | Except.ok _ => [Event.send (resolvePhone m) resetOkMsg]
           | Except.error _ => [Event.send (resolvePhone m) resetFailMsg])),
       (warmup env s (resolvePhone m)).2, none) := by
    rw [handleBody_eq env s m hg hb0, hdisp]
  have hmsg := handleMessage_eq_none env s m (by rw [hbody2])
  rw [hmsg, hbody2]
  refine ⟨?_, ?_, ?_, by decide, ?_, rfl⟩
  · have hpos := postWithRetry_attempts_pos env.reset
    simp only [List.mem_append]
    right; left
    simp only [resetEvents, List.mem_map]
    exact ⟨0, by simp [List.mem_range]; omega, rfl⟩
  · intro u hu
    rw [hu]
    simp
  · intro e he
    rw [he]
    simp
  · exact warmup_userLevels env s (resolvePhone m)

/-- Witness for C8: the command in upper case "#RESETAR" from a warmed-up
process with a succeeding reset backend POSTs to the endpoint, confirms, and
leaves the mapping unchanged. -/
theorem resetar_cmd_witness :
    Event.postReset (resolvePhone (textMsg "#RESETAR")) 0 ∈
      (handleMessage (envReply (some "x")) warmState (textMsg "#RESETAR")).1 ∧
    Event.send (resolvePhone (textMsg "#RESETAR")) resetOkMsg ∈
      (handleMessage (envReply (some "x")) warmState (textMsg "#RESETAR")).1 ∧
    (handleMessage (envReply (some "x")) warmState (textMsg "#RESETAR")).2.1.userLevels =
      warmState.userLevels := by
  have h := resetar_cmd (envReply (some "x")) warmState (textMsg "#RESETAR")
    rfl (by decide) (by decide) (fun a b2 => rfl)
  exact ⟨h.1, h.2.1 () rfl, h.2.2.2.2.1⟩

/-- C9: no exception ever escapes handleMessage: whatever the channel and
backend do, the escaping-error component is none; and whenever the body
throws, the trace ends with one attempt to send the generic unexpected-error
notice to `message?.from || 'unknown'` (so to the user whenever the sender id
is resolvable), whose own failure is likewise swallowed. -/
theorem handler_never_raises (env : Env) (s : BotState) (m : Message) :
    (handleMessage env s m).2.2 = none ∧
    (∀ e, (handleBody env s m).2.2 = some e →
      (handleMessage env s m).1 =
        (handleBody env s m).1 ++ [Event.send (jsOr m.msgFrom "unknown") unexpectedMsg]) := by
  constructor
  · unfold handleMessage
    cases h : (handleBody env s m).2.2 <;> simp [h]
  · intro e he
    rw [handleMessage_eq_some env s m e he]

/-- Witness for C9: with a channel where every send throws, the body throws
(its reply send fails) and the handler still returns no escaping error, after
attempting the generic notice. -/
theorem handler_never_raises_witness :
    (handleBody envSendFail warmState (textMsg "oi")).2.2 = some "SEND_FAIL" ∧
    (handleMessage envSendFail warmState (textMsg "oi")).2.2 = none ∧
    (handleMessage envSendFail warmState (textMsg "oi")).1 =
      (handleBody envSendFail warmState (textMsg "oi")).1 ++
        [Event.send (jsOr (textMsg "oi").msgFrom "unknown") unexpectedMsg] :=
  ⟨by decide,
   (handler_never_raises envSendFail warmState (textMsg "oi")).1,
   (handler_never_raises envSendFail warmState (textMsg "oi")).2 "SEND_FAIL" (by decide)⟩

/-- Inserting a binding for a user makes lookup return it (JS object
assignment overwrites the key). -/
theorem getLevel_insert (levels : List (String × String)) (phone lvl : String) :
    getLevel ((phone, lvl) :: levels) phone = some lvl := by
  simp [getLevel, List.find?]

/-- The digit branch of dispatch: store the mapped level for the sender and
send the confirmation naming that level. -/
theorem dispatch_digit (env : Env) (s1 : BotState) (p b ty : String)
    (hty : ¬ (ty = "ptt" ∨ ty = "audio"))
    (hd : b = "1" ∨ b = "2" ∨ b = "3" ∨ b = "4") :
    dispatch env s1 p b ty =
      ([Event.send p (levelSetMsg (levelMap b))],
       { s1 with userLevels := (p, levelMap b) :: s1.userLevels },
       (send1 env p (levelSetMsg (levelMap b))).2) := by
  have h1 : jsToLower b ≠ "#ajuda" := by
    rcases hd with h | h | h | h <;> subst h <;> decide
  have h2 : jsToLower b ≠ "#nivel" := by
    rcases hd with h | h | h | h <;> subst h <;> decide
  unfold dispatch
  rw [if_neg hty]
  dsimp only
  rw [if_neg h1, if_neg h2, if_pos hd]
  rfl

/-- The default branch of dispatch: POST the correction payload with retry,
then either forward the annotated reply or send the failure notice. -/
theorem dispatch_default (env : Env) (s1 : BotState) (p b ty : String)
    (hty : ¬ (ty = "ptt" ∨ ty = "audio"))
    (h1 : jsToLower b ≠ "#ajuda") (h2 : jsToLower b ≠ "#nivel")
    (h4 : jsToLower b ≠ "#resetar")
    (h3 : ¬ (b = "1" ∨ b = "2" ∨ b = "3" ∨ b = "4")) :
    dispatch env s1 p b ty =
      (correctEvents
          { user_message := b, level := jsOr (getLevel s1.userLevels p) "basic", phone := p }
          (postWithRetry env.correct 3).2.length ++
        (match (postWithRetry env.correct 3).1 with
         | Except.error _ => (send1 env p correctFailMsg).1
         | Except.ok data =>
           (runSendSafe env p (annotateReply (jsOr data.reply fallbackReply)) 3000).1),
       s1,
       (match (postWithRetry env.correct 3).1 with
        | Except.error _ => (send1 env p correctFailMsg).2
        | Except.ok data =>
          (runSendSafe env p (annotateReply (jsOr data.reply fallbackReply)) 3000).2)) := by
  unfold dispatch
  rw [if_neg hty]
  dsimp only
  rw [if_neg h1, if_neg h2, if_neg h3, if_neg h4]
  cases hc : (postWithRetry env.correct 3).1 <;> simp [hc]

/-- The warm-up trace contains no correction POST. -/
theorem postCorrect_not_mem_warmup (env : Env) (s : BotState) (p : String)
    (q : Payload) (i : Nat) : Event.postCorrect q i ∉ (warmup env s p).1 := by
  unfold warmup
  repeat' split
  all_goals simp [healthEvents]

/-- A chunked-send trace contains only send events. -/
theorem postCorrect_not_mem_sendPieces (env : Env) (d : String) (ts : List String)
    (q : Payload) (i : Nat) : Event.postCorrect q i ∉ (sendPieces env d ts).1 := by
  induction ts with
  | nil => simp [sendPieces]
  | cons t ts ih =>
    simp only [sendPieces]
    split
    · simpa using ih
    · simp

/-- A correction POST event in the attempt trace carries the loop's payload. -/
theorem postCorrect_mem_correctEvents {q pl : Payload} {i n : Nat}
    (h : Event.postCorrect q i ∈ correctEvents pl n) : q = pl := by
  simp only [correctEvents, List.mem_map] at h
  obtain ⟨j, hjn, heq⟩ := h
  injection heq with ha hb2
  exact ha.symm

/-- Every correction POST the handler makes on the default path carries
exactly the payload built from the trimmed body, the sender's stored level
(or "basic"), and the sender id. -/
theorem handleMessage_correct_payload (env : Env) (s : BotState) (m : Message)
    (hg : m.isGroupMsg = false) (hb0 : jsTrim (jsOr m.body "") ≠ "")
    (hty : ¬ (m.type = "ptt" ∨ m.type = "audio"))
    (h1 : jsToLower (jsTrim (jsOr m.body "")) ≠ "#ajuda")
    (h2 : jsToLower (jsTrim (jsOr m.body "")) ≠ "#nivel")
    (h4 : jsToLower (jsTrim (jsOr m.body "")) ≠ "#resetar")
    (h3 : ¬ (jsTrim (jsOr m.body "") = "1" ∨ jsTrim (jsOr m.body "") = "2" ∨
      jsTrim (jsOr m.body "") = "3" ∨ jsTrim (jsOr m.body "") = "4")) :
    ∀ q i, Event.postCorrect q i ∈ (handleMessage env s m).1 →
      q = { user_message := jsTrim (jsOr m.body ""),
            level := jsOr (getLevel s.userLevels (resolvePhone m)) "basic",
            phone := resolvePhone m } := by
  intro q i hqi
  have hdisp := dispatch_default env (warmup env s (resolvePhone m)).2 (resolvePhone m)
    (jsTrim (jsOr m.body "")) m.type hty h1 h2 h4 h3
  have hbodyEq := handleBody_eq env s m hg hb0
  have hwl := warmup_userLevels env s (resolvePhone m)
  have hmemBody : Event.postCorrect q i ∈ (handleBody env s m).1 := by
    cases he : (handleBody env s m).2.2 with
    | none => rw [handleMessage_eq_none env s m he] at hqi; exact hqi
    | some e2 =>
      rw [handleMessage_eq_some env s m e2 he] at hqi
      simp only [List.mem_append, List.mem_singleton] at hqi
      rcases hqi with hqi | hqi
      · exact hqi
      · cases hqi
  rw [hbodyEq] at hmemBody
  simp only [List.mem_append] at hmemBody
  rcases hmemBody with hqw | hqd
  · exact absurd hqw (postCorrect_not_mem_warmup env s (resolvePhone m) q i)
  · rw [hdisp] at hqd
    simp only [List.mem_append] at hqd
    rcases hqd with hqe | hqr
    · have := postCorrect_mem_correctEvents hqe
      rw [this, hwl]
    · exfalso
      cases hc : (postWithRetry env.correct 3).1 with
      | error e2 =>
        rw [hc] at hqr
        simp [send1] at hqr
      | ok data =>
        rw [hc] at hqr
        exact absurd hqr (postCorrect_not_mem_sendPieces env (resolvePhone m) _ q i)

/-- C7: a trimmed body of exactly "1"/"2"/"3"/"4" (on a non-audio, non-group
message) stores the mapped level for the sender and sends the confirmation
naming that level; any later default-path message posts a payload whose level
is the sender's stored level, and "basic" when no level is stored. -/
theorem level_selection (env env2 : Env) (s s2 : BotState) (m m2 : Message) (d : String)
    (hg : m.isGroupMsg = false) (hb : jsTrim (jsOr m.body "") = d)
    (hd : d = "1" ∨ d = "2" ∨ d = "3" ∨ d = "4")
    (hty : ¬ (m.type = "ptt" ∨ m.type = "audio")) :
    getLevel (handleMessage env s m).2.1.userLevels (resolvePhone m) = some (levelMap d) ∧
    Event.send (resolvePhone m) (levelSetMsg (levelMap d)) ∈ (handleMessage env s m).1 ∧
    levelMap d ≠ "" ∧
    (∀ lvl phone, getLevel s2.userLevels phone = some lvl → lvl ≠ "" →
      jsOr (getLevel s2.userLevels phone) "basic" = lvl) ∧
    (∀ phone, getLevel s2.userLevels phone = none →
      jsOr (getLevel s2.userLevels phone) "basic" = "basic") ∧
    (m2.isGroupMsg = false → jsTrim (jsOr m2.body "") ≠ "" →
      ¬ (m2.type = "ptt" ∨ m2.type = "audio") →
      jsToLower (jsTrim (jsOr m2.body "")) ≠ "#ajuda" →
      jsToLower (jsTrim (jsOr m2.body "")) ≠ "#nivel" →
      jsToLower (jsTrim (jsOr m2.body "")) ≠ "#resetar" →
      ¬ (jsTrim (jsOr m2.body "") = "1" ∨ jsTrim (jsOr m2.body "") = "2" ∨
        jsTrim (jsOr m2.body "") = "3" ∨ jsTrim (jsOr m2.body "") = "4") →
      ∀ q i, Event.postCorrect q i ∈ (handleMessage env2 s2 m2).1 →
        q = { user_message := jsTrim (jsOr m2.body ""),
              level := jsOr (getLevel s2.userLevels (resolvePhone m2)) "basic",
              phone := resolvePhone m2 }) := by
  have hb0 : jsTrim (jsOr m.body "") ≠ "" := by
    rcases hd with h | h | h | h <;> rw [hb, h] <;> decide
  have hbody2 : handleBody env s m =
      ((warmup env s (resolvePhone m)).1 ++ [Event.send (resolvePhone m) (levelSetMsg (levelMap d))],
       { (warmup env s (resolvePhone m)).2 with
          userLevels := (resolvePhone m, levelMap d) :: (warmup env s (resolvePhone m)).2.userLevels },
       (send1 env (resolvePhone m) (levelSetMsg (levelMap d))).2) := by
    rw [handleBody_eq env s m hg hb0, hb,
      dispatch_digit env (warmup env s (resolvePhone m)).2 (resolvePhone m) d m.type hty hd]
  have hstate : (handleMessage env s m).2.1 = (handleBody env s m).2.1 := by
    cases he : (handleBody env s m).2.2 with
    | none => rw [handleMessage_eq_none env s m he]
    | some e2 => rw [handleMessage_eq_some env s m e2 he]
  have htrace : ∀ x, x ∈ (handleBody env s m).1 → x ∈ (handleMessage env s m).1 := by
    intro x hx
    cases he : (handleBody env s m).2.2 with
    | none => rw [handleMessage_eq_none env s m he]; exact hx
    | some e2 =>
      rw [handleMessage_eq_some env s m e2 he]
      simp only [List.mem_append]
      exact Or.inl hx
  refine ⟨?_, ?_, ?_, ?_, ?_, ?_⟩
  · rw [hstate, hbody2]
    exact getLevel_insert _ (resolvePhone m) (levelMap d)
  · apply htrace
    rw [hbody2]
    simp
  · rcases hd with h | h | h | h <;> subst h <;> decide
  · intro lvl phone hl hne
    rw [hl]
    simp [jsOr, truthy, hne]
  · intro phone hl
    rw [hl]
    simp [jsOr, truthy]
  · intro hg2 hb2 hty2 h21 h22 h24 h23
    exact handleMessage_correct_payload env2 s2 m2 hg2 hb2 hty2 h21 h22 h24 h23

/-- Witness for C7: selecting "3" stores "intermediate" for u1 and confirms
it; a later free-text message from a state storing that level posts level
"intermediate"; the same message with no stored session posts "basic". -/
theorem level_selection_witness :
    getLevel (handleMessage envDown warmState (textMsg " 3 ")).2.1.userLevels
      (resolvePhone (textMsg " 3 ")) = some "intermediate" ∧
    Event.send (resolvePhone (textMsg " 3 ")) (levelSetMsg "intermediate") ∈
      (handleMessage envDown warmState (textMsg " 3 ")).1 ∧
    (∀ q i, Event.postCorrect q i ∈
        (handleMessage envDown { userLevels := [("u1", "intermediate")], warmedUp := true }
          (textMsg "I go school yesterday")).1 →
      q = { user_message := jsTrim (jsOr (textMsg "I go school yesterday").body ""),
            level := jsOr (getLevel ([("u1", "intermediate")] : List (String × String))
              (resolvePhone (textMsg "I go school yesterday"))) "basic",
            phone := resolvePhone (textMsg "I go school yesterday") }) ∧
    jsOr (getLevel ([] : List (String × String)) "u1") "basic" = "basic" := by
  have h := level_selection envDown envDown warmState
    { userLevels := [("u1", "intermediate")], warmedUp := true }
    (textMsg " 3 ") (textMsg "I go school yesterday") "3"
    rfl (by decide) (by decide) (by decide)
  have h0 := level_selection envDown envDown warmState
    { userLevels := [], warmedUp := true }
    (textMsg " 3 ") (textMsg "I go school yesterday") "3"
    rfl (by decide) (by decide) (by decide)
  refine ⟨?_, ?_, ?_, ?_⟩
  · have := h.1
    simpa [levelMap] using this
  · have := h.2.1
    simpa [levelMap] using this
  · exact h.2.2.2.2.2 rfl (by decide) (by decide) (by decide) (by decide) (by decide) (by decide)
  · exact h0.2.2.2.2.1 "u1" rfl

/-- With an all-failing backend the retry loop raises the error observed on
the last attempt. -/
theorem postWithRetry_all_fail {ε ρ : Type} (backend : Nat → Except ε ρ) (e : Nat → ε)
    (hfail : ∀ i, backend i = Except.error (e i)) :
    postWithRetry backend 3 = (Except.error (some (e 2)), [0, 2000, 5000]) := by
  simp [postWithRetry, retryGo, hfail 0, hfail 1, hfail 2, postDelays]

/-- Sends in the correction attempt trace: none. -/
theorem countSends_correctEvents (pl : Payload) (n : Nat) :
    countSends (correctEvents pl n) = 0 := by
  simp [countSends, correctEvents, List.countP_eq_zero]

/-- Counting sends distributes over concatenation. -/
theorem countSends_append (a b : List Event) :
    countSends (a ++ b) = countSends a + countSends b := by
  simp [countSends]

/-- Neither banner turns a reply into the backend-failure notice: the failure
notice starts with neither banner. -/
theorem annotate_ne_fail (r : String) (hr : r ≠ correctFailMsg) :
    annotateReply r ≠ correctFailMsg := by
  unfold annotateReply
  split
  · intro h
    have hd : correctBanner.data <+: correctFailMsg.data :=
      ⟨r.data, by rw [← String.data_append, h]⟩
    exact absurd hd (by decide)
  split
  · intro h
    have hd : incorrectBanner.data <+: correctFailMsg.data :=
      ⟨r.data, by rw [← String.data_append, h]⟩
    exact absurd hd (by decide)
  · exact hr

/-- C2 (amended): when all three attempts of the correction POST fail, the
last observed error is the one raised to the caller, and the handler — on the
default path of a warmed-up process with a working channel — emits exactly the
three attempt events followed by one user-visible failure notice, without any
escaping exception; the notice is distinct from every success-path message
except in the degenerate case where the backend reply text is itself the
failure-notice string. -/
theorem correct_all_fail (env : Env) (s : BotState) (m : Message) (e : Nat → String)
    (hw : s.warmedUp = true) (hg : m.isGroupMsg = false)
    (hb0 : jsTrim (jsOr m.body "") ≠ "")
    (hty : ¬ (m.type = "ptt" ∨ m.type = "audio"))
    (h1 : jsToLower (jsTrim (jsOr m.body "")) ≠ "#ajuda")
    (h2 : jsToLower (jsTrim (jsOr m.body "")) ≠ "#nivel")
    (h4 : jsToLower (jsTrim (jsOr m.body "")) ≠ "#resetar")
    (h3 : ¬ (jsTrim (jsOr m.body "") = "1" ∨ jsTrim (jsOr m.body "") = "2" ∨
      jsTrim (jsOr m.body "") = "3" ∨ jsTrim (jsOr m.body "") = "4"))
    (hfail : ∀ i, env.correct i = Except.error (e i))
    (hsend : ∀ a b2, env.sendOk a b2 = true) :
    (postWithRetry env.correct 3).1 = Except.error (some (e 2)) ∧
    (handleMessage env s m).1 =
      correctEvents
        { user_message := jsTrim (jsOr m.body ""),
          level := jsOr (getLevel s.userLevels (resolvePhone m)) "basic",
          phone := resolvePhone m } 3 ++
      [Event.send (resolvePhone m) correctFailMsg] ∧
    countSends (handleMessage env s m).1 = 1 ∧
    (handleMessage env s m).2.2 = none ∧
    (∀ r, r ≠ correctFailMsg → annotateReply r ≠ correctFailMsg) := by
  have hpost := postWithRetry_all_fail env.correct e hfail
  have hwarm := warmup_warmed env s (resolvePhone m) hw
  have hdisp := dispatch_default env (warmup env s (resolvePhone m)).2 (resolvePhone m)
    (jsTrim (jsOr m.body "")) m.type hty h1 h2 h4 h3
  have hdisp2 : dispatch env (warmup env s (resolvePhone m)).2 (resolvePhone m)
      (jsTrim (jsOr m.body "")) m.type =
      (correctEvents
          { user_message := jsTrim (jsOr m.body ""),
            level := jsOr (getLevel s.userLevels (resolvePhone m)) "basic",
            phone := resolvePhone m } 3 ++
        [Event.send (resolvePhone m) correctFailMsg],
       s, none) := by
    rw [hdisp, hpost, hwarm]
    simp [send1, hsend (resolvePhone m) correctFailMsg]
  have hbody2 : handleBody env s m =
      (correctEvents
          { user_message := jsTrim (jsOr m.body ""),
            level := jsOr (getLevel s.userLevels (resolvePhone m)) "basic",
            phone := resolvePhone m } 3 ++
        [Event.send (resolvePhone m) correctFailMsg],
       s, none) := by
    rw [handleBody_eq env s m hg hb0, hdisp2, hwarm]
    simp
  rw [handleMessage_eq_none env s m (by rw [hbody2]), hbody2]
  refine ⟨by rw [hpost], rfl, ?_, rfl, fun r hr => annotate_ne_fail r hr⟩
  rw [countSends_append, countSends_correctEvents]
  simp [countSends]

/-- Witness for C2: the always-failing backend raises its last error, and a
plain text message yields exactly one (failure-notice) send. -/
theorem correct_all_fail_witness :
    (postWithRetry envDown.correct 3).1 = Except.error (some "ETIMEDOUT") ∧
    countSends (handleMessage envDown warmState (textMsg "oi")).1 = 1 ∧
    (handleMessage envDown warmState (textMsg "oi")).2.2 = none := by
  have h := correct_all_fail envDown warmState (textMsg "oi") (fun _ => "ETIMEDOUT")
    rfl rfl (by decide) (by decide) (by decide) (by decide) (by decide) (by decide)
    (fun i => rfl) (fun a b2 => rfl)
  exact ⟨h.1, h.2.2.1, h.2.2.2.1⟩

set_option maxRecDepth 8000 in
/-- Counterexample to C2 as stated: when the backend reply text is literally
the failure notice, a SUCCESSFUL run forwards a message equal to the failure
notice, so the failure notice is not distinct from every success-path
message. -/
theorem correct_all_fail_cex :
    (postWithRetry (envReply (some correctFailMsg)).correct 3).1 =
      Except.ok { reply := some correctFailMsg } ∧
    Event.send "u1" correctFailMsg ∈
      (handleMessage (envReply (some correctFailMsg)) warmState (textMsg "oi")).1 := by
  constructor
  · rfl
  · decide

end BotIngles
